import Mathlib

/-!
Verification development for the adaptive PayPal gateway
(`paypal/adaptive/gateway.py`, `paypal/adaptive/views.py`).

Monetary amounts are modelled as exact rationals; `round2` models rounding
to two decimal places (cents), as performed by the source's
`round(..., 2)` calls on decimal amounts.
-/

namespace PaypalAdaptive

/-- Rounding to 2 fraction digits, as in the source's `round(x, 2)`. -/
def round2 (q : ℚ) : ℚ := (⌊q * 100 + 1 / 2⌋ : ℚ) / 100

/-- `gateway.Receiver`: one payee of the adaptive split payment. -/
structure Receiver where
  email : String
  amount : ℚ
  is_primary : Bool
deriving DecidableEq, Repr

/-- The partner owning a stock record: payout email plus commission percent. -/
structure Partner where
  paypal_email : String
  commission : ℚ
deriving DecidableEq, Repr

/-- The product of a stock record; only the top-up flag is consulted. -/
structure Product where
  is_top_up : Bool
deriving DecidableEq, Repr

/-- `line.stockrecord`: partner, product and unit price excluding tax. -/
structure StockRecord where
  partner : Partner
  product : Product
  price_excl_tax : ℚ
deriving DecidableEq, Repr

/-- One basket line: a stock record and a quantity. -/
structure Line where
  stockrecord : StockRecord
  quantity : ℕ
deriving DecidableEq, Repr

/-- A basket: its lines and its `total_incl_tax` amount. -/
structure Basket where
  lines : List Line
  total_incl_tax : ℚ
deriving DecidableEq, Repr

/-- `round(line.stockrecord.price_excl_tax * line.quantity, 2)` in
`_get_receivers`. -/
def lineAmount (l : Line) : ℚ :=
  round2 (l.stockrecord.price_excl_tax * l.quantity)

/-- `round(price * partner.commission / 100, 2)` in `_get_receivers`. -/
def lineCommission (l : Line) : ℚ :=
  round2 (lineAmount l * l.stockrecord.partner.commission / 100)

/-- Dictionary update of `_get_receivers`: if a receiver with this email
exists, add to its amount (keeping its primary flag); otherwise append a
fresh receiver with the given primary flag. -/
def addAmount : List Receiver → String → ℚ → Bool → List Receiver
  | [], e, a, p => [Receiver.mk e a p]
  | r :: rest, e, a, p =>
      if r.email = e then Receiver.mk r.email (r.amount + a) r.is_primary :: rest
      else r :: addAmount rest e a p

/-- One iteration of the `for line in basket.lines.all()` loop of
`_get_receivers`: top-up lines send the full line amount to the partner
(non-primary); other lines send the commission to the platform email
(non-primary) and the line amount to the partner (primary). -/
def processLine (plat : String) (rs : List Receiver) (l : Line) : List Receiver :=
  if l.stockrecord.product.is_top_up then
    addAmount rs l.stockrecord.partner.paypal_email (lineAmount l) false
  else
    addAmount (addAmount rs plat (lineCommission l) false)
      l.stockrecord.partner.paypal_email (lineAmount l) true

/-- `gateway._get_receivers(basket)`, with `plat` standing for
`settings.PAYPAL_EMAIL`.  Returns the dictionary's values. -/
def get_receivers (plat : String) (basket : Basket) : List Receiver :=
  basket.lines.foldl (processLine plat) []

/-! Observers used to state the claims about the receiver list. -/

/-- Sum of all emitted amounts. -/
def totalAmount : List Receiver → ℚ
  | [] => 0
  | r :: rest => r.amount + totalAmount rest

/-- Amount accumulated under a given payout identifier. -/
def amountFor (e : String) : List Receiver → ℚ
  | [] => 0
  | r :: rest => (if r.email = e then r.amount else 0) + amountFor e rest

/-- Number of emitted entries carrying a given payout identifier. -/
def keyCount (e : String) : List Receiver → ℕ
  | [] => 0
  | r :: rest => (if r.email = e then 1 else 0) + keyCount e rest

/-- Whether some entry carries the given payout identifier. -/
def hasEmail (e : String) : List Receiver → Bool
  | [] => false
  | r :: rest => r.email = e || hasEmail e rest

/-- Primary flag of the entry carrying the given identifier, if any. -/
def primaryFor (e : String) : List Receiver → Option Bool
  | [] => none
  | r :: rest => if r.email = e then some r.is_primary else primaryFor e rest

/-- The amount `_get_receivers` routes to identifier `e` for a single line. -/
def lineContribution (plat e : String) (l : Line) : ℚ :=
  if l.stockrecord.product.is_top_up then
    (if l.stockrecord.partner.paypal_email = e then lineAmount l else 0)
  else
    (if plat = e then lineCommission l else 0) +
      (if l.stockrecord.partner.paypal_email = e then lineAmount l else 0)

/-- The amount a single line adds across all identifiers. -/
def lineTotal (l : Line) : ℚ :=
  lineAmount l + (if l.stockrecord.product.is_top_up then 0 else lineCommission l)

/-- Whether a single line touches identifier `e` at all. -/
def lineTouches (plat e : String) (l : Line) : Bool :=
  if l.stockrecord.product.is_top_up then
    l.stockrecord.partner.paypal_email = e
  else
    plat = e || l.stockrecord.partner.paypal_email = e

/-- First of two optional flags, mirroring dictionary-insertion priority. -/
def firstSome (o₁ o₂ : Option Bool) : Option Bool :=
  match o₁ with
  | some b => some b
  | none => o₂

/-- The primary flag a single line would install for identifier `e` if the
identifier is not yet present. -/
def lineFlag (plat e : String) (l : Line) : Option Bool :=
  if l.stockrecord.product.is_top_up then
    (if l.stockrecord.partner.paypal_email = e then some false else none)
  else
    (if plat = e then some false
     else if l.stockrecord.partner.paypal_email = e then some true else none)

/-- Flag installed for identifier `e` by the first line touching it. -/
def firstFlag (plat e : String) : List Line → Option Bool
  | [] => none
  | l :: ls => firstSome (lineFlag plat e l) (firstFlag plat e ls)

/-! Transport and gateway calls (`gateway.py`). -/

/-- PayPal method identifiers, as at the top of `gateway.py`. -/
def SET_ADAPTIVE_CHECKOUT : String := "CREATE"

def GET_ADAPTIVE_CHECKOUT : String := "GET"

def DO_ADAPTIVE_CHECKOUT : String := "DO"

def GET_EXPRESS_CHECKOUT : String := "GetExpressCheckoutDetails"

def DO_EXPRESS_CHECKOUT : String := "DoExpressCheckoutPayment"

def DO_CAPTURE : String := "DoCapture"

def DO_VOID : String := "DoVoid"

def REFUND_TRANSACTION : String := "RefundTransaction"

def SET_CHAINED_PAYMENT : String := "SetChainedPayment"

def SALE : String := "Sale"

/-- `Urls = namedtuple('Urls', 'sandbox production')`. -/
structure Urls where
  sandbox : String
  production : String
deriving DecidableEq, Repr

/-- The `URLS` dictionary of `gateway.py`; lookups on absent methods yield
`none` (a `KeyError` in the source). -/
def URLS (method : String) : Option Urls :=
  if method = SET_ADAPTIVE_CHECKOUT then
    some ⟨"https://svcs.sandbox.paypal.com/AdaptivePayments/Pay",
          "https://svcs.paypal.com/AdaptivePayments/Pay"⟩
  else if method = GET_ADAPTIVE_CHECKOUT then
    some ⟨"https://svcs.sandbox.paypal.com/AdaptivePayments/PaymentDetails",
          "https://svcs.paypal.com/AdaptivePayments/PaymentDetails"⟩
  else if method = DO_ADAPTIVE_CHECKOUT then
    some ⟨"https://svcs.sandbox.paypal.com/AdaptivePayments/ExecutePayment",
          "https://svcs.paypal.com/AdaptivePayments/ExecutePayment"⟩
  else none

/-- The HTTP response the provider would return for the one POST a call
makes: status code, body decoded as key-value pairs, and elapsed time. -/
structure HttpResponse where
  status_code : ℕ
  content : List (String × String)
  elapsed_ms : ℚ
deriving DecidableEq, Repr

/-- First value for a key, as `urlparse.parse_qs` keeps `values[0]`. -/
def firstValue (kv : List (String × String)) (k : String) : Option String :=
  (kv.find? (fun p => p.1 = k)).map (fun p => p.2)

/-- The distinct failure conditions raised by the gateway:
`InvalidBasket`, the transport-level `PayPalError("Unable to communicate
with PayPal")`, a `KeyError` on a missing dictionary key, and the
provider-reported `PayPalError`. -/
inductive PayPalFailure where
  | invalidBasket (msg : String)
  | communicationError (msg : String)
  | keyError (key : String)
  | payPalError (msg : String)
deriving DecidableEq, Repr

/-- The key-value mapping `_post` returns, with its audit entries. -/
structure Pairs where
  kv : List (String × String)
  raw_request : List (String × String)
  raw_response : List (String × String)
  response_time : ℚ
deriving DecidableEq, Repr

/-- `requests.codes.ok`. -/
def requests_codes_ok : ℕ := 200

/-- `gateway._post`: raise on any status other than `requests.codes.ok`,
otherwise decode the body and attach the audit entries. -/
def post (params : List (String × String)) (resp : HttpResponse) :
    Except PayPalFailure Pairs :=
  if resp.status_code ≠ requests_codes_ok then
    .error (.communicationError "Unable to communicate with PayPal")
  else
    .ok ⟨resp.content, params, resp.content, resp.elapsed_ms⟩

/-- Result of `_fetch_response`: the outcome plus the POSTs actually
issued (URL and payload). -/
structure FetchOutcome where
  result : Except PayPalFailure Pairs
  netCalls : List (String × List (String × String))
deriving Repr

/-- `gateway._fetch_response`: choose the URL for the method from `URLS`
(sandbox or production) and POST to it.  A method absent from `URLS` is a
`KeyError` before any request is made. -/
def fetch_response (sandbox_mode : Bool) (method : String)
    (params : List (String × String)) (resp : HttpResponse) : FetchOutcome :=
  match URLS method with
  | none => ⟨.error (.keyError method), []⟩
  | some urls =>
      let url := if sandbox_mode then urls.sandbox else urls.production
      ⟨post params resp, [(url, params)]⟩

/-- Process-wide configuration consulted by the gateway. -/
structure PaypalSettings where
  PAYPAL_SANDBOX_MODE : Bool
  PAYPAL_EMAIL : String
deriving DecidableEq, Repr

/-- Modelled from the spec: the persisted `models.AdaptiveTransaction`
(the models module is not part of the sources).  Per the spec's
TransactionRecord: operation kind, acknowledgement, raw payloads, latency,
and the optional correlation id, pay key, amount, currency and
error code/message fields, all unset until populated. -/
structure AdaptiveTransaction where
  method : String
  ack : String
  raw_request : List (String × String)
  raw_response : List (String × String)
  response_time : ℚ
  correlation_id : Option String
  pay_key : Option String
  amount : Option ℚ
  currency : Option String
  error_code : Option String
  error_message : Option String
deriving DecidableEq, Repr

/-- Modelled from the spec: `AdaptiveTransaction.is_successful` recognizes
the acknowledgement values "Success" and "SuccessWithWarning". -/
def AdaptiveTransaction.is_successful (t : AdaptiveTransaction) : Bool :=
  t.ack = "Success" || t.ack = "SuccessWithWarning"

/-- Modelled from the spec: `AdaptiveTransaction.value(key)` is a dynamic
field-name lookup into the flat response mapping, absent keys giving no
value. -/
def AdaptiveTransaction.value (t : AdaptiveTransaction) (k : String) : Option String :=
  firstValue t.raw_response k

/-- A fresh record as first constructed in `set_txn`/`get_txn`/`do_txn`,
before the success or error fields are populated. -/
def mkBaseTxn (method ack : String) (pairs : Pairs) : AdaptiveTransaction :=
  ⟨method, ack, pairs.raw_request, pairs.raw_response, pairs.response_time,
    none, none, none, none, none, none⟩

/-- Population of the success-branch fields. -/
def withSuccessFields (t : AdaptiveTransaction) (cid pk : String)
    (amt : Option ℚ) (cur : Option String) : AdaptiveTransaction :=
  ⟨t.method, t.ack, t.raw_request, t.raw_response, t.response_time,
    some cid, some pk, amt, cur, t.error_code, t.error_message⟩

/-- Population of the failure-branch fields from `txn.value(...)`. -/
def withErrorFields (t : AdaptiveTransaction) : AdaptiveTransaction :=
  ⟨t.method, t.ack, t.raw_request, t.raw_response, t.response_time,
    t.correlation_id, t.pay_key, t.amount, t.currency,
    t.value "error(0).errorId", t.value "error(0).message"⟩

/-- Python's rendering of a possibly-`None` string under `"%s"`. -/
def pyStr : Option String → String
  | some s => s
  | none => "None"

/-- The `"Error %s - %s"` message raised for an unsuccessful record. -/
def errorText (t : AdaptiveTransaction) : String :=
  "Error " ++ pyStr t.error_code ++ " - " ++ pyStr t.error_message

/-- Outcome of one gateway call: the returned value or raised failure, the
POSTs issued, and the records persisted by `txn.save()`. -/
structure CallOutcome (α : Type) where
  result : Except PayPalFailure α
  netCalls : List (String × List (String × String))
  persisted : List AdaptiveTransaction

/-- The indexed `receiverList.receiver(N).*` parameters of `set_txn`. -/
def receiverParams (receivers : List Receiver) : List (String × String) :=
  (receivers.enum.map (fun p =>
    [("receiverList.receiver(" ++ toString p.1 ++ ").amount", toString p.2.amount),
     ("receiverList.receiver(" ++ toString p.1 ++ ").email", p.2.email),
     ("receiverList.receiver(" ++ toString p.1 ++ ").primary",
       if p.2.is_primary then "true" else "false")])).flatten

/-- The `webscr` redirect base chosen at the end of `set_txn`. -/
def webscrUrl (sandbox_mode : Bool) : String :=
  if sandbox_mode then "https://www.sandbox.paypal.com/webscr"
  else "https://www.paypal.com/webscr"

/-- `gateway.set_txn`: register the payment.  Checks the USD ceiling and
the positive-total precondition, computes the receivers, POSTs, builds and
saves the record, and raises on an unsuccessful acknowledgement. -/
def set_txn (cfg : PaypalSettings) (basket : Basket)
    (currency return_url cancel_url : String) (resp : HttpResponse) :
    CallOutcome String :=
  let baseParams : List (String × String) :=
    [("actionType", SET_ADAPTIVE_CHECKOUT),
     ("cancelUrl", cancel_url),
     ("currencyCode", currency),
     ("requestEnvelope.errorLanguage", "en_US"),
     ("returnUrl", return_url)]
  let amount := basket.total_incl_tax
  if currency = "USD" ∧ 10000 < amount then
    ⟨.error (.invalidBasket "PayPal can only be used for orders up to 10000 USD"), [], []⟩
  else if amount ≤ 0 then
    ⟨.error (.invalidBasket "The basket total is zero so no payment is required"), [], []⟩
  else
    let params := baseParams ++ receiverParams (get_receivers cfg.PAYPAL_EMAIL basket)
    let f := fetch_response cfg.PAYPAL_SANDBOX_MODE SET_ADAPTIVE_CHECKOUT params resp
    match f.result with
    | .error e => ⟨.error e, f.netCalls, []⟩
    | .ok pairs =>
      match firstValue pairs.kv "responseEnvelope.ack" with
      | none => ⟨.error (.keyError "responseEnvelope.ack"), f.netCalls, []⟩
      | some ack =>
        let base := mkBaseTxn SET_ADAPTIVE_CHECKOUT ack pairs
        if base.is_successful then
          match firstValue pairs.kv "responseEnvelope.correlationId" with
          | none => ⟨.error (.keyError "responseEnvelope.correlationId"), f.netCalls, []⟩
          | some cid =>
            match firstValue pairs.kv "payKey" with
            | none => ⟨.error (.keyError "payKey"), f.netCalls, []⟩
            | some pk =>
              let txn := withSuccessFields base cid pk (some amount) (some currency)
              ⟨.ok (webscrUrl cfg.PAYPAL_SANDBOX_MODE ++ "?cmd=_ap-payment&paykey=" ++ pk),
                f.netCalls, [txn]⟩
        else
          let txn := withErrorFields base
          ⟨.error (.payPalError (errorText txn)), f.netCalls, [txn]⟩

/-- `gateway.get_txn`: fetch the details of a transaction by pay key. -/
def get_txn (cfg : PaypalSettings) (pay_key : String) (resp : HttpResponse) :
    CallOutcome AdaptiveTransaction :=
  let params : List (String × String) :=
    [("actionType", GET_ADAPTIVE_CHECKOUT),
     ("payKey", pay_key),
     ("requestEnvelope.errorLanguage", "en_US")]
  let f := fetch_response cfg.PAYPAL_SANDBOX_MODE GET_ADAPTIVE_CHECKOUT params resp
  match f.result with
  | .error e => ⟨.error e, f.netCalls, []⟩
  | .ok pairs =>
    match firstValue pairs.kv "responseEnvelope.ack" with
    | none => ⟨.error (.keyError "responseEnvelope.ack"), f.netCalls, []⟩
    | some ack =>
      let base := mkBaseTxn GET_ADAPTIVE_CHECKOUT ack pairs
      if base.is_successful then
        match firstValue pairs.kv "responseEnvelope.correlationId" with
        | none => ⟨.error (.keyError "responseEnvelope.correlationId"), f.netCalls, []⟩
        | some cid =>
          match firstValue pairs.kv "payKey" with
          | none => ⟨.error (.keyError "payKey"), f.netCalls, []⟩
          | some pk =>
            match firstValue pairs.kv "currencyCode" with
            | none => ⟨.error (.keyError "currencyCode"), f.netCalls, []⟩
            | some cur =>
              let txn := withSuccessFields base cid pk none (some cur)
              ⟨.ok txn, f.netCalls, [txn]⟩
      else
        let txn := withErrorFields base
        ⟨.error (.payPalError (errorText txn)), f.netCalls, [txn]⟩

set_option linter.unusedVariables false in
/-- `gateway.do_txn`: execute the payment for a token.  The `payer_id`,
`amount`, `currency` and `action` arguments are accepted but never used. -/
def do_txn (cfg : PaypalSettings) (payer_id token : String) (amount : ℚ)
    (currency : String) (action : String) (resp : HttpResponse) :
    CallOutcome AdaptiveTransaction :=
  let params : List (String × String) :=
    [("payKey", token),
     ("requestEnvelope.errorLanguage", "en_US")]
  let f := fetch_response cfg.PAYPAL_SANDBOX_MODE DO_ADAPTIVE_CHECKOUT params resp
  match f.result with
  | .error e => ⟨.error e, f.netCalls, []⟩
  | .ok pairs =>
    match firstValue pairs.kv "responseEnvelope.ack" with
    | none => ⟨.error (.keyError "responseEnvelope.ack"), f.netCalls, []⟩
    | some ack =>
      let base := mkBaseTxn DO_ADAPTIVE_CHECKOUT ack pairs
      if base.is_successful then
        match firstValue pairs.kv "responseEnvelope.correlationId" with
        | none => ⟨.error (.keyError "responseEnvelope.correlationId"), f.netCalls, []⟩
        | some cid =>
          match firstValue pairs.kv "payKey" with
          | none => ⟨.error (.keyError "payKey"), f.netCalls, []⟩
          | some pk =>
            match firstValue pairs.kv "currencyCode" with
            | none => ⟨.error (.keyError "currencyCode"), f.netCalls, []⟩
            | some cur =>
              let txn := withSuccessFields base cid pk none (some cur)
              ⟨.ok txn, f.netCalls, [txn]⟩
      else
        let txn := withErrorFields base
        ⟨.error (.payPalError (errorText txn)), f.netCalls, [txn]⟩

/-- `gateway.do_capture`: capture from a previous transaction. -/
def do_capture (cfg : PaypalSettings) (txn_id : String) (amount : ℚ)
    (currency : String) (complete_type : String) (note : Option String)
    (resp : HttpResponse) : FetchOutcome :=
  let params : List (String × String) :=
    [("AUTHORIZATIONID", txn_id),
     ("AMT", toString amount),
     ("CURRENCYCODE", currency),
     ("COMPLETETYPE", complete_type)] ++
    (match note with | some n => [("NOTE", n)] | none => [])
  fetch_response cfg.PAYPAL_SANDBOX_MODE DO_CAPTURE params resp

/-- `gateway.do_void`. -/
def do_void (cfg : PaypalSettings) (txn_id : String) (note : Option String)
    (resp : HttpResponse) : FetchOutcome :=
  let params : List (String × String) :=
    [("AUTHORIZATIONID", txn_id)] ++
    (match note with | some n => [("NOTE", n)] | none => [])
  fetch_response cfg.PAYPAL_SANDBOX_MODE DO_VOID params resp

def FULL_REFUND : String := "Full"

def PARTIAL_REFUND : String := "Partial"

/-- `gateway.refund_txn`. -/
def refund_txn (cfg : PaypalSettings) (txn_id : String) ( is_partial : Bool)
    (amount : Option ℚ) (currency : Option String) (resp : HttpResponse) :
    FetchOutcome :=
  let params : List (String × String) :=
    [("TRANSACTIONID", txn_id),
     ("REFUNDTYPE", if is_partial then PARTIAL_REFUND else FULL_REFUND)] ++
    (if is_partial then
      [("AMT", pyStr (amount.map toString)), ("CURRENCYCODE", pyStr currency)]
     else [])
  fetch_response cfg.PAYPAL_SANDBOX_MODE REFUND_TRANSACTION params resp

/-! The success-callback view (`views.SuccessResponseView.get`). -/

/-- The inputs `SuccessResponseView.get` consults: the `pay_key` query
parameter, the outcome of `fetch_transaction_details`, the loaded frozen
basket, and the outcome of `handle_order_placement`. -/
structure SuccessViewRequest where
  pay_key_param : Option String
  fetchResult : Except PayPalFailure AdaptiveTransaction
  basketLoaded : Option Basket
  placement : Except String Unit

/-- Observable outcome of the success view: an error redirect to the
basket summary, a placed order, or the re-rendered preview after a
placement exception. -/
inductive SuccessViewOutcome where
  | errorRedirect (msg : String)
  | orderPlaced
  | previewError (msg : String)
deriving DecidableEq, Repr

/-- `SuccessResponseView.get`: bail out to the basket summary unless the
pay key is supplied, the transaction details can be fetched, the fetched
transaction is successful with status `COMPLETED`, and the basket loads;
only then is order placement attempted. -/
def successResponseGet (req : SuccessViewRequest) : SuccessViewOutcome :=
  match req.pay_key_param with
  | none => .errorRedirect "Pay key not provided as the request argument"
  | some _ =>
    match req.fetchResult with
    | .error _ =>
        .errorRedirect "Error occurred while getting transation status from PayPal"
    | .ok txn =>
      if txn.is_successful = false ∨ txn.value "status" ≠ some "COMPLETED" then
        .errorRedirect "Transaction status is incomplete"
      else
        match req.basketLoaded with
        | none => .errorRedirect "Unable to load basket details"
        | some _ =>
          match req.placement with
          | .ok _ => .orderPlaced
          | .error e => .previewError e

/-- Both success fields set and both error fields unset, or conversely,
with the error fields taken from the indexed error entries of the parsed
response body. -/
def RecordShape (content : List (String × String)) (txn : AdaptiveTransaction) : Prop :=
  (txn.correlation_id.isSome = true ∧ txn.pay_key.isSome = true ∧
    txn.error_code = none ∧ txn.error_message = none ∧
    txn.is_successful = true) ∨
  (txn.correlation_id = none ∧ txn.pay_key = none ∧
    txn.error_code = firstValue content "error(0).errorId" ∧
    txn.error_message = firstValue content "error(0).message" ∧
    txn.is_successful = false)

/-- Both the correlation id and the pay key are set. -/
def successFieldsPresent (t : AdaptiveTransaction) : Bool :=
  t.correlation_id.isSome && t.pay_key.isSome

/-- Both the error code and the error message are set. -/
def errorFieldsPresent (t : AdaptiveTransaction) : Bool :=
  t.error_code.isSome && t.error_message.isSome


/-! Aggregation lemmas about the receiver dictionary. -/

theorem totalAmount_addAmount (rs : List Receiver) (e : String) (a : ℚ) (p : Bool) :
    totalAmount (addAmount rs e a p) = totalAmount rs + a := by
  induction rs with
  | nil => simp [addAmount, totalAmount]
  | cons r rest ih =>
    by_cases h : r.email = e
    · simp [addAmount, h, totalAmount]; ring
    · simp [addAmount, h, totalAmount, ih]; ring

theorem amountFor_addAmount (rs : List Receiver) (e e' : String) (a : ℚ) (p : Bool) :
    amountFor e' (addAmount rs e a p) =
      amountFor e' rs + (if e = e' then a else 0) := by
  induction rs with
  | nil => simp [addAmount, amountFor]
  | cons r rest ih =>
    by_cases h : r.email = e
    · by_cases h' : r.email = e'
      · have he : e = e' := h ▸ h'
        simp [addAmount, h, amountFor, h', he]; ring
      · have he : ¬ e = e' := fun hc => h' (hc ▸ h)
        simp [addAmount, h, amountFor, h', he]
    · by_cases h' : r.email = e'
      · have hne : ¬ e' = e := fun hc => h (h' ▸ hc)
        simp [addAmount, h, amountFor, h', hne, ih]; ring
      · simp [addAmount, h, amountFor, h', ih]

theorem hasEmail_addAmount (rs : List Receiver) (e e' : String) (a : ℚ) (p : Bool) :
    hasEmail e' (addAmount rs e a p) = (hasEmail e' rs || decide (e = e')) := by
  induction rs with
  | nil => simp [addAmount, hasEmail]
  | cons r rest ih =>
    by_cases h : r.email = e
    · by_cases h' : r.email = e'
      · have he : e = e' := h ▸ h'
        simp [addAmount, h, hasEmail, h', he]
      · have he : ¬ e = e' := fun hc => h' (hc ▸ h)
        simp [addAmount, h, hasEmail, h', he]
    · by_cases h' : r.email = e'
      · have hne : ¬ e' = e := fun hc => h (h' ▸ hc)
        simp [addAmount, h, hasEmail, h', hne, ih]
      · simp [addAmount, h, hasEmail, h', ih]

theorem keyCount_addAmount (rs : List Receiver) (e e' : String) (a : ℚ) (p : Bool) :
    keyCount e' (addAmount rs e a p) =
      if hasEmail e rs then keyCount e' rs
      else keyCount e' rs + (if e = e' then 1 else 0) := by
  induction rs with
  | nil => simp [addAmount, keyCount, hasEmail]
  | cons r rest ih =>
    by_cases h : r.email = e
    · simp [addAmount, h, keyCount, hasEmail]
    · by_cases hh : hasEmail e rest
      · simp [addAmount, h, keyCount, hasEmail, hh, ih]
      · simp [addAmount, h, keyCount, hasEmail, hh, ih]
        by_cases he : e = e'
        · simp [he]; omega
        · simp [he]

theorem primaryFor_addAmount (rs : List Receiver) (e e' : String) (a : ℚ) (p : Bool) :
    primaryFor e' (addAmount rs e a p) =
      firstSome (primaryFor e' rs) (if e = e' then some p else none) := by
  induction rs with
  | nil => simp [addAmount, primaryFor, firstSome]
  | cons r rest ih =>
    by_cases h : r.email = e
    · by_cases h' : r.email = e'
      · have he : e = e' := h ▸ h'
        simp [addAmount, h, primaryFor, h', he, firstSome]
      · have he : ¬ e = e' := fun hc => h' (hc ▸ h)
        simp [addAmount, h, primaryFor, h', he, firstSome]
        cases primaryFor e' rest <;> simp [firstSome]
    · by_cases h' : r.email = e'
      · have hne : ¬ e' = e := fun hc => h (h' ▸ hc)
        simp [addAmount, h, primaryFor, h', hne, firstSome]
      · simp [addAmount, h, primaryFor, h', ih]

theorem firstSome_assoc (o₁ o₂ o₃ : Option Bool) :
    firstSome (firstSome o₁ o₂) o₃ = firstSome o₁ (firstSome o₂ o₃) := by
  cases o₁ <;> simp [firstSome]

/-! Per-line step lemmas. -/

theorem totalAmount_processLine (plat : String) (rs : List Receiver) (l : Line) :
    totalAmount (processLine plat rs l) = totalAmount rs + lineTotal l := by
  by_cases h : l.stockrecord.product.is_top_up
  · simp [processLine, h, totalAmount_addAmount, lineTotal]
  · simp [processLine, h, totalAmount_addAmount, lineTotal]; ring

theorem amountFor_processLine (plat e : String) (rs : List Receiver) (l : Line) :
    amountFor e (processLine plat rs l) = amountFor e rs + lineContribution plat e l := by
  by_cases h : l.stockrecord.product.is_top_up
  · simp [processLine, h, amountFor_addAmount, lineContribution]
  · simp [processLine, h, amountFor_addAmount, lineContribution]; ring

theorem hasEmail_processLine (plat e : String) (rs : List Receiver) (l : Line) :
    hasEmail e (processLine plat rs l) = (hasEmail e rs || lineTouches plat e l) := by
  by_cases h : l.stockrecord.product.is_top_up
  · simp [processLine, h, hasEmail_addAmount, lineTouches]
  · simp [processLine, h, hasEmail_addAmount, lineTouches, Bool.or_assoc]

theorem primaryFor_processLine (plat e : String) (rs : List Receiver) (l : Line) :
    primaryFor e (processLine plat rs l) =
      firstSome (primaryFor e rs) (lineFlag plat e l) := by
  by_cases h : l.stockrecord.product.is_top_up
  · simp [processLine, h, primaryFor_addAmount, lineFlag]
  · simp only [processLine, h, Bool.false_eq_true, if_false, primaryFor_addAmount,
      firstSome_assoc]
    congr 1
    by_cases h1 : plat = e <;> by_cases h2 : l.stockrecord.partner.paypal_email = e <;>
      simp [lineFlag, h, h1, h2, firstSome]

theorem keyCount_processLine_preserved (plat e : String) (rs : List Receiver) (l : Line)
    (hk : keyCount e rs = if hasEmail e rs then 1 else 0) :
    keyCount e (processLine plat rs l) =
      if hasEmail e (processLine plat rs l) then 1 else 0 := by
  by_cases h : l.stockrecord.product.is_top_up
  · simp only [processLine, h, if_true, keyCount_addAmount, hasEmail_addAmount]
    by_cases hh : hasEmail e rs <;>
      by_cases he : l.stockrecord.partner.paypal_email = e <;>
        simp [hh, he, hk]
  · simp only [processLine, h, Bool.false_eq_true, if_false, keyCount_addAmount,
      hasEmail_addAmount]
    by_cases hh : hasEmail e rs <;>
      by_cases hp : plat = e <;>
        by_cases he : l.stockrecord.partner.paypal_email = e <;>
          by_cases hpe : hasEmail plat rs <;>
            simp [hh, hp, he, hpe, hk, hasEmail_addAmount]

/-! Fold lemmas over the whole line list. -/

theorem totalAmount_foldl (plat : String) (lines : List Line) (rs : List Receiver) :
    totalAmount (lines.foldl (processLine plat) rs) =
      totalAmount rs + (lines.map lineTotal).sum := by
  induction lines generalizing rs with
  | nil => simp
  | cons l ls ih => simp [List.foldl_cons, ih, totalAmount_processLine]; ring

theorem amountFor_foldl (plat e : String) (lines : List Line) (rs : List Receiver) :
    amountFor e (lines.foldl (processLine plat) rs) =
      amountFor e rs + (lines.map (lineContribution plat e)).sum := by
  induction lines generalizing rs with
  | nil => simp
  | cons l ls ih => simp [List.foldl_cons, ih, amountFor_processLine]; ring

theorem hasEmail_foldl (plat e : String) (lines : List Line) (rs : List Receiver) :
    hasEmail e (lines.foldl (processLine plat) rs) =
      (hasEmail e rs || lines.any (lineTouches plat e)) := by
  induction lines generalizing rs with
  | nil => simp
  | cons l ls ih => simp [List.foldl_cons, ih, hasEmail_processLine, Bool.or_assoc]

theorem keyCount_foldl (plat e : String) (lines : List Line) (rs : List Receiver)
    (hk : keyCount e rs = if hasEmail e rs then 1 else 0) :
    keyCount e (lines.foldl (processLine plat) rs) =
      if hasEmail e (lines.foldl (processLine plat) rs) then 1 else 0 := by
  induction lines generalizing rs with
  | nil => simpa using hk
  | cons l ls ih => exact ih _ (keyCount_processLine_preserved plat e rs l hk)

theorem primaryFor_foldl (plat e : String) (lines : List Line) (rs : List Receiver) :
    primaryFor e (lines.foldl (processLine plat) rs) =
      firstSome (primaryFor e rs) (firstFlag plat e lines) := by
  induction lines generalizing rs with
  | nil => cases h : primaryFor e rs <;> simp [firstFlag, firstSome, h]
  | cons l ls ih =>
    simp [List.foldl_cons, ih, primaryFor_processLine, firstFlag, firstSome_assoc]

/-! Claim theorems. -/

/-- C1 (counterexample): for a basket holding one non-top-up line of price
100, quantity 1 and commission 10, the emitted payee amounts sum to 110,
which differs both from the sum of the rounded line amounts (100) and from
the basket's `total_incl_tax` (100): the payee list does not sum to the
basket total. -/
theorem receivers_sum_counterexample :
    totalAmount (get_receivers "platform@x"
        (Basket.mk [Line.mk (StockRecord.mk (Partner.mk "p@x" 10) (Product.mk false) 100) 1] 100)) ≠
      (([Line.mk (StockRecord.mk (Partner.mk "p@x" 10) (Product.mk false) 100) 1].map lineAmount).sum) ∧
    totalAmount (get_receivers "platform@x"
        (Basket.mk [Line.mk (StockRecord.mk (Partner.mk "p@x" 10) (Product.mk false) 100) 1] 100)) ≠
      (Basket.mk [Line.mk (StockRecord.mk (Partner.mk "p@x" 10) (Product.mk false) 100) 1] 100).total_incl_tax := by
  constructor <;>
    · simp [get_receivers, processLine, addAmount, totalAmount, lineCommission,
        lineAmount, round2]
      norm_num

/-- C1 (amended): for every basket, the sum of the amounts over the Payee
list emitted by `_get_receivers` equals the basket lines total (sum of the
per-line rounded amounts) plus the platform's accumulated commission (sum
of the per-line rounded commissions over the non-top-up lines). -/
theorem receivers_sum_eq_lines_total_plus_commission (plat : String) (basket : Basket) :
    totalAmount (get_receivers plat basket) =
      (basket.lines.map lineAmount).sum +
        (basket.lines.map (fun l =>
          if l.stockrecord.product.is_top_up then 0 else lineCommission l)).sum := by
  have h := totalAmount_foldl plat basket.lines []
  simp only [get_receivers, h, totalAmount]
  rw [zero_add]
  induction basket.lines with
  | nil => simp
  | cons l ls ih => simp [lineTotal, ih]; ring

/-- C3: for every basket whose `total_incl_tax` is non-positive, and for
every USD basket whose total exceeds 10000, `set_txn` fails with
`InvalidBasket`, issues no network call and persists nothing. -/
theorem set_txn_invalid_basket (cfg : PaypalSettings) (basket : Basket)
    (currency return_url cancel_url : String) (resp : HttpResponse)
    (h : basket.total_incl_tax ≤ 0 ∨
      (currency = "USD" ∧ 10000 < basket.total_incl_tax)) :
    (∃ msg, (set_txn cfg basket currency return_url cancel_url resp).result =
        .error (.invalidBasket msg)) ∧
    (set_txn cfg basket currency return_url cancel_url resp).netCalls = [] ∧
    (set_txn cfg basket currency return_url cancel_url resp).persisted = [] := by
  rcases h with h | h
  · have hnot : ¬ (currency = "USD" ∧ 10000 < basket.total_incl_tax) := by
      rintro ⟨-, hgt⟩; linarith
    simp [set_txn, hnot, h]
  · simp [set_txn, h]

/-- C3 (witness): a basket with total 0 in GBP is rejected with
`InvalidBasket`, no network call, nothing persisted. -/
theorem set_txn_invalid_basket_witness :
    (∃ msg, (set_txn (PaypalSettings.mk true "plat@x") (Basket.mk [] 0) "GBP" "r" "c"
        (HttpResponse.mk 200 [] 1)).result = .error (.invalidBasket msg)) ∧
    (set_txn (PaypalSettings.mk true "plat@x") (Basket.mk [] 0) "GBP" "r" "c"
        (HttpResponse.mk 200 [] 1)).netCalls = [] ∧
    (set_txn (PaypalSettings.mk true "plat@x") (Basket.mk [] 0) "GBP" "r" "c"
        (HttpResponse.mk 200 [] 1)).persisted = [] :=
  set_txn_invalid_basket (PaypalSettings.mk true "plat@x") (Basket.mk [] 0)
    "GBP" "r" "c" (HttpResponse.mk 200 [] 1) (Or.inl (by norm_num))

/-- C4: whenever the HTTP response status is not in the 2xx range, each of
`get_txn`, `do_txn` and (for a basket passing the precondition checks)
`set_txn` raises the transport `PayPalError("Unable to communicate with
PayPal")` and persists no record. -/
theorem non2xx_raises_communication_error (cfg : PaypalSettings) (basket : Basket)
    (currency return_url cancel_url pay_key payer_id token act : String)
    (amount : ℚ) (resp : HttpResponse)
    (h : ¬ (200 ≤ resp.status_code ∧ resp.status_code < 300)) :
    ((get_txn cfg pay_key resp).result =
        .error (.communicationError "Unable to communicate with PayPal") ∧
      (get_txn cfg pay_key resp).persisted = []) ∧
    ((do_txn cfg payer_id token amount currency act resp).result =
        .error (.communicationError "Unable to communicate with PayPal") ∧
      (do_txn cfg payer_id token amount currency act resp).persisted = []) ∧
    (0 < basket.total_incl_tax →
      ¬ (currency = "USD" ∧ 10000 < basket.total_incl_tax) →
      (set_txn cfg basket currency return_url cancel_url resp).result =
        .error (.communicationError "Unable to communicate with PayPal") ∧
      (set_txn cfg basket currency return_url cancel_url resp).persisted = []) := by
  have hne : resp.status_code ≠ 200 := by omega
  refine ⟨?_, ?_, ?_⟩
  · constructor <;>
      simp [get_txn, fetch_response, URLS, post, requests_codes_ok, hne,
        GET_ADAPTIVE_CHECKOUT, SET_ADAPTIVE_CHECKOUT]
  · constructor <;>
      simp [do_txn, fetch_response, URLS, post, requests_codes_ok, hne,
        DO_ADAPTIVE_CHECKOUT, GET_ADAPTIVE_CHECKOUT, SET_ADAPTIVE_CHECKOUT]
  · intro hpos husd
    have hle : ¬ basket.total_incl_tax ≤ 0 := by linarith
    constructor <;>
      simp [set_txn, husd, hle, fetch_response, URLS, post, requests_codes_ok, hne,
        SET_ADAPTIVE_CHECKOUT]

/-- C4 (witness): a 500 response to `get_txn` raises the transport error
and persists nothing, and likewise for `do_txn` and a valid `set_txn`. -/
theorem non2xx_raises_communication_error_witness :
    ((get_txn (PaypalSettings.mk true "plat@x") "PK" (HttpResponse.mk 500 [] 1)).result =
        .error (.communicationError "Unable to communicate with PayPal") ∧
      (get_txn (PaypalSettings.mk true "plat@x") "PK" (HttpResponse.mk 500 [] 1)).persisted = []) ∧
    ((do_txn (PaypalSettings.mk true "plat@x") "Payer" "TOK" 5 "GBP" "Sale"
        (HttpResponse.mk 500 [] 1)).result =
        .error (.communicationError "Unable to communicate with PayPal") ∧
      (do_txn (PaypalSettings.mk true "plat@x") "Payer" "TOK" 5 "GBP" "Sale"
        (HttpResponse.mk 500 [] 1)).persisted = []) ∧
    (0 < (Basket.mk [] 5).total_incl_tax →
      ¬ ("GBP" = "USD" ∧ 10000 < (Basket.mk [] 5).total_incl_tax) →
      (set_txn (PaypalSettings.mk true "plat@x") (Basket.mk [] 5) "GBP" "r" "c"
        (HttpResponse.mk 500 [] 1)).result =
        .error (.communicationError "Unable to communicate with PayPal") ∧
      (set_txn (PaypalSettings.mk true "plat@x") (Basket.mk [] 5) "GBP" "r" "c"
        (HttpResponse.mk 500 [] 1)).persisted = []) :=
  non2xx_raises_communication_error (PaypalSettings.mk true "plat@x") (Basket.mk [] 5)
    "GBP" "r" "c" "PK" "Payer" "TOK" "Sale" 5 (HttpResponse.mk 500 [] 1) (by decide)

/-- C8 (evaluation at the failing inputs): the `URLS` table holds entries
for the three adaptive methods only, so `do_capture`, `do_void` and
`refund_txn` always fail their URL lookup with a `KeyError` before any
POST is issued, while the three adaptive operations find their URLs. -/
theorem capture_void_refund_lookup_fails (cfg : PaypalSettings) (txn_id : String)
    (amount : ℚ) (currency complete_type : String) (note : Option String)
    ( is_partial : Bool) (ramount : Option ℚ) (rcurrency : Option String)
    (resp : HttpResponse) :
    ((do_capture cfg txn_id amount currency complete_type note resp).result =
        .error (.keyError DO_CAPTURE) ∧
      (do_capture cfg txn_id amount currency complete_type note resp).netCalls = []) ∧
    ((do_void cfg txn_id note resp).result = .error (.keyError DO_VOID) ∧
      (do_void cfg txn_id note resp).netCalls = []) ∧
    ((refund_txn cfg txn_id is_partial ramount rcurrency resp).result =
        .error (.keyError REFUND_TRANSACTION) ∧
      (refund_txn cfg txn_id is_partial ramount rcurrency resp).netCalls = []) ∧
    (URLS SET_ADAPTIVE_CHECKOUT).isSome = true ∧
    (URLS GET_ADAPTIVE_CHECKOUT).isSome = true ∧
    (URLS DO_ADAPTIVE_CHECKOUT).isSome = true := by
  simp [do_capture, do_void, refund_txn, fetch_response, URLS,
    DO_CAPTURE, DO_VOID, REFUND_TRANSACTION,
    SET_ADAPTIVE_CHECKOUT, GET_ADAPTIVE_CHECKOUT, DO_ADAPTIVE_CHECKOUT]

/-- C9: the success view never reaches order placement unless the fetched
transaction is successful and its status is COMPLETED, and whenever a
fetched transaction fails either condition the view redirects away. -/
theorem success_view_guards_order (req : SuccessViewRequest) :
    (successResponseGet req = .orderPlaced →
      ∃ txn, req.fetchResult = .ok txn ∧ txn.is_successful = true ∧
        txn.value "status" = some "COMPLETED") ∧
    (∀ txn, req.fetchResult = .ok txn →
      (txn.is_successful = false ∨ txn.value "status" ≠ some "COMPLETED") →
      ∃ msg, successResponseGet req = .errorRedirect msg) := by
  obtain ⟨pk, fr, bl, pl⟩ := req
  constructor
  · intro hplaced
    cases pk with
    | none => simp [successResponseGet] at hplaced
    | some k =>
      cases fr with
      | error e => simp [successResponseGet] at hplaced
      | ok txn =>
        refine ⟨txn, rfl, ?_⟩
        by_cases hc : txn.is_successful = false ∨ txn.value "status" ≠ some "COMPLETED"
        · simp [successResponseGet, hc] at hplaced
        · push_neg at hc
          exact ⟨by simpa using hc.1, hc.2⟩
  · intro txn hfr hc
    cases pk with
    | none => exact ⟨_, rfl⟩
    | some k =>
      cases fr with
      | error e => exact ⟨_, rfl⟩
      | ok txn' =>
        have : txn' = txn := by simpa using hfr
        subst this
        refine ⟨"Transaction status is incomplete", ?_⟩
        simp [successResponseGet, hc]

/-- C10: two `do_txn` calls with the same token, configuration and
provider response but different `payer_id`, `amount` and `currency`
arguments are indistinguishable: equal outcome, an outbound payload
holding only the pay key and error-language fields, and no persisted
record ever carries an amount. -/
theorem do_txn_ignores_payer_amount_currency (cfg : PaypalSettings)
    (p1 p2 token : String) (a1 a2 : ℚ) (c1 c2 act1 act2 : String)
    (resp : HttpResponse) :
    do_txn cfg p1 token a1 c1 act1 resp = do_txn cfg p2 token a2 c2 act2 resp ∧
    (do_txn cfg p1 token a1 c1 act1 resp).netCalls =
      [((if cfg.PAYPAL_SANDBOX_MODE then
          "https://svcs.sandbox.paypal.com/AdaptivePayments/ExecutePayment"
        else "https://svcs.paypal.com/AdaptivePayments/ExecutePayment"),
        [("payKey", token), ("requestEnvelope.errorLanguage", "en_US")])] ∧
    (∀ txn ∈ (do_txn cfg p1 token a1 c1 act1 resp).persisted, txn.amount = none) := by
  refine ⟨rfl, ?_, ?_⟩
  · simp [do_txn, fetch_response, URLS, DO_ADAPTIVE_CHECKOUT,
      SET_ADAPTIVE_CHECKOUT, GET_ADAPTIVE_CHECKOUT]
    split
    · simp
    · split
      · simp
      · split
        · split
          · simp
          · split
            · simp
            · split
              · simp
              · simp
        · simp
  · intro txn hmem
    revert hmem
    simp only [do_txn]
    split
    · simp
    · split
      · simp
      · split
        · split
          · simp
          · split
            · simp
            · split
              · simp
              · intro hmem
                simp at hmem
                subst hmem
                rfl
        · intro hmem
          simp at hmem
          subst hmem
          rfl

/-- C5: for a non-empty basket whose lines all carry the same payout
identifier, `_get_receivers` emits exactly one entry for that identifier;
its amount is the sum of the per-line contributions (each line's amount
rounded to 2 decimals before summing, the commission likewise when the
identifier is the platform's); when the identifier differs from the
platform's, that sum is exactly the sum of the rounded line amounts; and
the amount is unchanged under any permutation of the lines. -/
theorem shared_identifier_single_entry (plat e : String) (basket : Basket)
    (h1 : basket.lines ≠ [])
    (h2 : ∀ l ∈ basket.lines, l.stockrecord.partner.paypal_email = e) :
    keyCount e (get_receivers plat basket) = 1 ∧
    amountFor e (get_receivers plat basket) =
      (basket.lines.map (lineContribution plat e)).sum ∧
    (e ≠ plat → amountFor e (get_receivers plat basket) =
      (basket.lines.map lineAmount).sum) ∧
    (∀ lines2 : List Line, basket.lines.Perm lines2 →
      amountFor e (get_receivers plat (Basket.mk lines2 basket.total_incl_tax)) =
        amountFor e (get_receivers plat basket)) := by
  have hamount : amountFor e (get_receivers plat basket) =
      (basket.lines.map (lineContribution plat e)).sum := by
    simpa [amountFor] using amountFor_foldl plat e basket.lines []
  refine ⟨?_, hamount, ?_, ?_⟩
  · have hk := keyCount_foldl plat e basket.lines [] (by simp [keyCount, hasEmail])
    have hany : basket.lines.any (lineTouches plat e) = true := by
      obtain ⟨l, ls, hl⟩ : ∃ l ls, basket.lines = l :: ls := by
        cases hc : basket.lines with
        | nil => exact absurd hc h1
        | cons a as => exact ⟨a, as, rfl⟩
      have he := h2 l (by simp [hl])
      have : lineTouches plat e l = true := by
        by_cases ht : l.stockrecord.product.is_top_up <;>
          simp [lineTouches, ht, he]
      simp [hl, this]
    have hhas := hasEmail_foldl plat e basket.lines []
    simp only [get_receivers]
    rw [hk]
    simp [hhas, hasEmail, hany]
  · intro hne
    have hne2 : ¬ plat = e := fun hc => hne hc.symm
    rw [hamount]
    congr 1
    apply List.map_congr_left
    intro l hl
    have he := h2 l hl
    by_cases ht : l.stockrecord.product.is_top_up <;>
      simp [lineContribution, ht, he, hne2]
  · intro lines2 hperm
    have ha2 : amountFor e (get_receivers plat (Basket.mk lines2 basket.total_incl_tax)) =
        (lines2.map (lineContribution plat e)).sum := by
      simpa [amountFor] using amountFor_foldl plat e lines2 []
    rw [ha2, hamount]
    exact ((hperm.map (lineContribution plat e)).sum_eq).symm

/-- C5 (witness): two lines for partner `p@x` (one of them a top-up line)
yield a single entry for `p@x` whose amount is the sum of the two rounded
line contributions. -/
theorem shared_identifier_single_entry_witness :
    keyCount "p@x" (get_receivers "plat@x"
      (Basket.mk
        [Line.mk (StockRecord.mk (Partner.mk "p@x" 10) (Product.mk true) 3) 2,
         Line.mk (StockRecord.mk (Partner.mk "p@x" 10) (Product.mk false) 5) 1] 11)) = 1 ∧
    amountFor "p@x" (get_receivers "plat@x"
      (Basket.mk
        [Line.mk (StockRecord.mk (Partner.mk "p@x" 10) (Product.mk true) 3) 2,
         Line.mk (StockRecord.mk (Partner.mk "p@x" 10) (Product.mk false) 5) 1] 11)) =
      (([Line.mk (StockRecord.mk (Partner.mk "p@x" 10) (Product.mk true) 3) 2,
         Line.mk (StockRecord.mk (Partner.mk "p@x" 10) (Product.mk false) 5) 1].map
          (lineContribution "plat@x" "p@x")).sum) :=
  ⟨(shared_identifier_single_entry "plat@x" "p@x"
      (Basket.mk
        [Line.mk (StockRecord.mk (Partner.mk "p@x" 10) (Product.mk true) 3) 2,
         Line.mk (StockRecord.mk (Partner.mk "p@x" 10) (Product.mk false) 5) 1] 11)
      (by simp) (by simp)).1,
   (shared_identifier_single_entry "plat@x" "p@x"
      (Basket.mk
        [Line.mk (StockRecord.mk (Partner.mk "p@x" 10) (Product.mk true) 3) 2,
         Line.mk (StockRecord.mk (Partner.mk "p@x" 10) (Product.mk false) 5) 1] 11)
      (by simp) (by simp)).2.1⟩

/-- Auxiliary: with the observed identifier distinct from the platform's,
the installed flag is decided by the first line carrying the identifier. -/
theorem firstFlag_of_ne (plat e : String) (hne : e ≠ plat) (lines : List Line) :
    firstFlag plat e lines =
      (lines.find? (fun l => l.stockrecord.partner.paypal_email = e)).map
        (fun l => !l.stockrecord.product.is_top_up) := by
  have hne2 : ¬ plat = e := fun hc => hne hc.symm
  induction lines with
  | nil => simp [firstFlag]
  | cons l ls ih =>
    by_cases ht : l.stockrecord.product.is_top_up <;>
      by_cases he : l.stockrecord.partner.paypal_email = e <;>
        simp [firstFlag, lineFlag, ht, he, firstSome, ih, hne2, List.find?]

/-- Auxiliary: any flag the platform entry receives is non-primary: a
top-up line inserts the partner non-primary, and a non-top-up line always
inserts the platform's commission entry (non-primary) before touching the
partner's, so the platform identifier is only ever created non-primary. -/
theorem firstFlag_platform (plat : String) (lines : List Line) :
    ∀ b, firstFlag plat plat lines = some b → b = false := by
  induction lines with
  | nil => simp [firstFlag]
  | cons l ls ih =>
    intro b hb
    by_cases ht : l.stockrecord.product.is_top_up
    · by_cases he : l.stockrecord.partner.paypal_email = plat
      · simp [firstFlag, lineFlag, ht, he, firstSome] at hb
        exact hb
      · simp [firstFlag, lineFlag, ht, he, firstSome] at hb
        exact ih b hb
    · simp [firstFlag, lineFlag, ht, firstSome] at hb
      exact hb

/-- C6 (counterexample): with a top-up line first and a non-top-up line
second, both for partner `p@x`, the emitted entry for `p@x` is non-primary
even though a non-top-up line for `p@x` exists — refuting "primary iff at
least one line for that identifier is a non-top-up product". -/
theorem primary_flag_counterexample :
    primaryFor "p@x" (get_receivers "plat@x"
      (Basket.mk
        [Line.mk (StockRecord.mk (Partner.mk "p@x" 10) (Product.mk true) 5) 1,
         Line.mk (StockRecord.mk (Partner.mk "p@x" 10) (Product.mk false) 5) 1] 10)) =
      some false ∧
    ([Line.mk (StockRecord.mk (Partner.mk "p@x" 10) (Product.mk true) 5) 1,
      Line.mk (StockRecord.mk (Partner.mk "p@x" 10) (Product.mk false) 5) 1].any
        (fun l => l.stockrecord.partner.paypal_email = "p@x" &&
          !l.stockrecord.product.is_top_up)) = true := by
  constructor
  · simp [get_receivers, processLine, addAmount, primaryFor]
  · simp

/-- C6 (amended): for an identifier distinct from the platform's, the
emitted entry is marked primary iff the first basket line carrying that
identifier is a non-top-up product (the flag is fixed at the entry's
creation); and the platform's entry is never marked primary. -/
theorem primary_flag_first_line (plat e : String) (basket : Basket) :
    (e ≠ plat →
      primaryFor e (get_receivers plat basket) =
        (basket.lines.find? (fun l => l.stockrecord.partner.paypal_email = e)).map
          (fun l => !l.stockrecord.product.is_top_up)) ∧
    primaryFor plat (get_receivers plat basket) ≠ some true := by
  have hfold := primaryFor_foldl plat e basket.lines []
  have hfoldp := primaryFor_foldl plat plat basket.lines []
  constructor
  · intro hne
    simp only [get_receivers, hfold, primaryFor, firstSome]
    exact firstFlag_of_ne plat e hne basket.lines
  · intro hcontra
    have : firstFlag plat plat basket.lines = some true := by
      simpa [get_receivers, hfoldp, primaryFor, firstSome] using hcontra
    simpa using firstFlag_platform plat basket.lines true this

/-- C6 (witness): a single non-top-up line for `p@x` yields a primary
entry for `p@x` (its first — and only — line is non-top-up), and the
platform entry `plat@x` is not primary. -/
theorem primary_flag_first_line_witness :
    primaryFor "p@x" (get_receivers "plat@x"
      (Basket.mk [Line.mk (StockRecord.mk (Partner.mk "p@x" 10) (Product.mk false) 5) 1] 5)) =
      (([Line.mk (StockRecord.mk (Partner.mk "p@x" 10) (Product.mk false) 5) 1].find?
          (fun l => l.stockrecord.partner.paypal_email = "p@x")).map
        (fun l => !l.stockrecord.product.is_top_up)) ∧
    primaryFor "plat@x" (get_receivers "plat@x"
      (Basket.mk [Line.mk (StockRecord.mk (Partner.mk "p@x" 10) (Product.mk false) 5) 1] 5)) ≠
      some true :=
  ⟨(primary_flag_first_line "plat@x" "p@x"
      (Basket.mk [Line.mk (StockRecord.mk (Partner.mk "p@x" 10) (Product.mk false) 5) 1] 5)).1
      (by simp),
   (primary_flag_first_line "plat@x" "p@x"
      (Basket.mk [Line.mk (StockRecord.mk (Partner.mk "p@x" 10) (Product.mk false) 5) 1] 5)).2⟩

/-! Characterization of the records each call persists. -/

theorem mkBaseTxn_is_successful (m ack : String) (pairs : Pairs) :
    (mkBaseTxn m ack pairs).is_successful =
      (decide (ack = "Success") || decide (ack = "SuccessWithWarning")) := rfl

theorem set_txn_persisted_mem (cfg : PaypalSettings) (basket : Basket)
    (currency return_url cancel_url : String) (resp : HttpResponse)
    (txn : AdaptiveTransaction)
    (h : txn ∈ (set_txn cfg basket currency return_url cancel_url resp).persisted) :
    RecordShape resp.content txn := by
  revert h
  simp only [set_txn]
  split
  · intro h; simp at h
  · split
    · intro h; simp at h
    · by_cases hst : resp.status_code = 200
      · simp only [fetch_response, URLS, SET_ADAPTIVE_CHECKOUT, GET_ADAPTIVE_CHECKOUT,
          DO_ADAPTIVE_CHECKOUT]
        norm_num
        simp only [post, requests_codes_ok, hst]
        norm_num
        cases hack : firstValue resp.content "responseEnvelope.ack" with
        | none => intro h; simp at h
        | some ack =>
          simp only [mkBaseTxn_is_successful, Bool.or_eq_true, decide_eq_true_eq]
          by_cases hs : (ack = "Success" ∨ ack = "SuccessWithWarning")
          · rw [if_pos hs]
            cases hcid : firstValue resp.content "responseEnvelope.correlationId" with
            | none => intro h; simp at h
            | some cid =>
              cases hpk : firstValue resp.content "payKey" with
              | none => intro h; simp at h
              | some pk =>
                intro h
                simp at h
                subst h
                left
                rcases hs with hs | hs <;>
                  simp [withSuccessFields, mkBaseTxn, AdaptiveTransaction.is_successful, hs]
          · rw [if_neg hs]
            intro h
            simp at h
            subst h
            right
            push_neg at hs
            simp [withErrorFields, mkBaseTxn, AdaptiveTransaction.value,
              AdaptiveTransaction.is_successful, hs.1, hs.2]
      · simp only [fetch_response, URLS, SET_ADAPTIVE_CHECKOUT, GET_ADAPTIVE_CHECKOUT,
          DO_ADAPTIVE_CHECKOUT]
        norm_num
        simp only [post, requests_codes_ok]
        rw [if_pos hst]
        intro h; simp at h

theorem URLS_get_eq : URLS GET_ADAPTIVE_CHECKOUT =
    some ⟨"https://svcs.sandbox.paypal.com/AdaptivePayments/PaymentDetails",
          "https://svcs.paypal.com/AdaptivePayments/PaymentDetails"⟩ := rfl

theorem URLS_do_eq : URLS DO_ADAPTIVE_CHECKOUT =
    some ⟨"https://svcs.sandbox.paypal.com/AdaptivePayments/ExecutePayment",
          "https://svcs.paypal.com/AdaptivePayments/ExecutePayment"⟩ := rfl

theorem get_txn_persisted_mem (cfg : PaypalSettings) (pay_key : String)
    (resp : HttpResponse) (txn : AdaptiveTransaction)
    (h : txn ∈ (get_txn cfg pay_key resp).persisted) :
    RecordShape resp.content txn := by
  revert h
  simp only [get_txn]
  by_cases hst : resp.status_code = 200
  · simp only [fetch_response, URLS_get_eq, post, requests_codes_ok, hst]
    norm_num
    cases hack : firstValue resp.content "responseEnvelope.ack" with
    | none => intro h; simp [hack] at h
    | some ack =>
      try simp only [hack]
      simp only [mkBaseTxn_is_successful, Bool.or_eq_true, decide_eq_true_eq]
      by_cases hs : (ack = "Success" ∨ ack = "SuccessWithWarning")
      · rw [if_pos hs]
        cases hcid : firstValue resp.content "responseEnvelope.correlationId" with
        | none => intro h; simp [hcid] at h
        | some cid =>
          try simp only [hcid]
          cases hpk : firstValue resp.content "payKey" with
          | none => intro h; simp [hpk] at h
          | some pk =>
            try simp only [hpk]
            cases hcur : firstValue resp.content "currencyCode" with
            | none => intro h; simp [hcur] at h
            | some cur =>
              try simp only [hcur]
              intro h
              simp at h
              subst h
              left
              rcases hs with hs | hs <;>
                simp [withSuccessFields, mkBaseTxn, AdaptiveTransaction.is_successful, hs]
      · rw [if_neg hs]
        intro h
        simp at h
        subst h
        right
        push_neg at hs
        simp [withErrorFields, mkBaseTxn, AdaptiveTransaction.value,
          AdaptiveTransaction.is_successful, hs.1, hs.2]
  · simp only [fetch_response, URLS_get_eq, post, requests_codes_ok]
    rw [if_pos hst]
    intro h; simp at h

theorem do_txn_persisted_mem (cfg : PaypalSettings) (payer_id token : String)
    (amount : ℚ) (currency act : String) (resp : HttpResponse)
    (txn : AdaptiveTransaction)
    (h : txn ∈ (do_txn cfg payer_id token amount currency act resp).persisted) :
    RecordShape resp.content txn := by
  revert h
  simp only [do_txn]
  by_cases hst : resp.status_code = 200
  · simp only [fetch_response, URLS_do_eq, post, requests_codes_ok, hst]
    norm_num
    cases hack : firstValue resp.content "responseEnvelope.ack" with
    | none => intro h; simp [hack] at h
    | some ack =>
      try simp only [hack]
      simp only [mkBaseTxn_is_successful, Bool.or_eq_true, decide_eq_true_eq]
      by_cases hs : (ack = "Success" ∨ ack = "SuccessWithWarning")
      · rw [if_pos hs]
        cases hcid : firstValue resp.content "responseEnvelope.correlationId" with
        | none => intro h; simp [hcid] at h
        | some cid =>
          try simp only [hcid]
          cases hpk : firstValue resp.content "payKey" with
          | none => intro h; simp [hpk] at h
          | some pk =>
            try simp only [hpk]
            cases hcur : firstValue resp.content "currencyCode" with
            | none => intro h; simp [hcur] at h
            | some cur =>
              try simp only [hcur]
              intro h
              simp at h
              subst h
              left
              rcases hs with hs | hs <;>
                simp [withSuccessFields, mkBaseTxn, AdaptiveTransaction.is_successful, hs]
      · rw [if_neg hs]
        intro h
        simp at h
        subst h
        right
        push_neg at hs
        simp [withErrorFields, mkBaseTxn, AdaptiveTransaction.value,
          AdaptiveTransaction.is_successful, hs.1, hs.2]
  · simp only [fetch_response, URLS_do_eq, post, requests_codes_ok]
    rw [if_pos hst]
    intro h; simp at h

theorem recordShape_fields (content : List (String × String))
    (txn : AdaptiveTransaction) (hshape : RecordShape content txn) :
    ¬ (successFieldsPresent txn = true ∧ errorFieldsPresent txn = true) ∧
    ((firstValue content "error(0).errorId").isSome = true →
      (firstValue content "error(0).message").isSome = true →
      successFieldsPresent txn = !(errorFieldsPresent txn)) := by
  rcases hshape with ⟨h1, h2, h3, h4, h5⟩ | ⟨h1, h2, h3, h4, h5⟩
  · constructor
    · rintro ⟨hsp, hep⟩
      simp [errorFieldsPresent, h3] at hep
    · intro he1 he2
      simp [successFieldsPresent, errorFieldsPresent, h1, h2, h3, h4]
  · constructor
    · rintro ⟨hsp, hep⟩
      simp [successFieldsPresent, h1] at hsp
    · intro he1 he2
      simp [successFieldsPresent, errorFieldsPresent, h1, h2, h3, h4, he1, he2]

/-- C2 (amended): for every record persisted by a completed `set_txn`,
`get_txn` or `do_txn` call, the correlation-id/pay-key pair and the
error-code/error-message pair are never both present; and exactly one of
the two pairs is present whenever the response carries the first indexed
error entries (`error(0).errorId`, `error(0).message`) — a failure
response lacking them yields a persisted record with neither pair. -/
theorem persisted_success_xor_error_fields (cfg : PaypalSettings) (basket : Basket)
    (currency return_url cancel_url pay_key payer_id token act : String)
    (amt : ℚ) (resp : HttpResponse) :
    (∀ txn ∈ (set_txn cfg basket currency return_url cancel_url resp).persisted,
      ¬ (successFieldsPresent txn = true ∧ errorFieldsPresent txn = true) ∧
      ((firstValue resp.content "error(0).errorId").isSome = true →
        (firstValue resp.content "error(0).message").isSome = true →
        successFieldsPresent txn = !(errorFieldsPresent txn))) ∧
    (∀ txn ∈ (get_txn cfg pay_key resp).persisted,
      ¬ (successFieldsPresent txn = true ∧ errorFieldsPresent txn = true) ∧
      ((firstValue resp.content "error(0).errorId").isSome = true →
        (firstValue resp.content "error(0).message").isSome = true →
        successFieldsPresent txn = !(errorFieldsPresent txn))) ∧
    (∀ txn ∈ (do_txn cfg payer_id token amt currency act resp).persisted,
      ¬ (successFieldsPresent txn = true ∧ errorFieldsPresent txn = true) ∧
      ((firstValue resp.content "error(0).errorId").isSome = true →
        (firstValue resp.content "error(0).message").isSome = true →
        successFieldsPresent txn = !(errorFieldsPresent txn))) :=
  ⟨fun txn h => recordShape_fields resp.content txn
      (set_txn_persisted_mem cfg basket currency return_url cancel_url resp txn h),
   fun txn h => recordShape_fields resp.content txn
      (get_txn_persisted_mem cfg pay_key resp txn h),
   fun txn h => recordShape_fields resp.content txn
      (do_txn_persisted_mem cfg payer_id token amt currency act resp txn h)⟩

/-- C2 (counterexample): a completed `get_txn` whose failure response
carries no indexed error entries persists a record in which neither the
correlation-id/pay-key pair nor the error-code/error-message pair is
present — refuting "exactly one ... never neither". -/
theorem persisted_neither_pair_counterexample :
    (get_txn (PaypalSettings.mk true "plat@x") "PK"
        (HttpResponse.mk 200 [("responseEnvelope.ack", "Failure")] 1)).persisted =
      [AdaptiveTransaction.mk GET_ADAPTIVE_CHECKOUT "Failure"
        [("actionType", "GET"), ("payKey", "PK"), ("requestEnvelope.errorLanguage", "en_US")]
        [("responseEnvelope.ack", "Failure")] 1 none none none none none none] ∧
    successFieldsPresent
      (AdaptiveTransaction.mk GET_ADAPTIVE_CHECKOUT "Failure"
        [("actionType", "GET"), ("payKey", "PK"), ("requestEnvelope.errorLanguage", "en_US")]
        [("responseEnvelope.ack", "Failure")] 1 none none none none none none) = false ∧
    errorFieldsPresent
      (AdaptiveTransaction.mk GET_ADAPTIVE_CHECKOUT "Failure"
        [("actionType", "GET"), ("payKey", "PK"), ("requestEnvelope.errorLanguage", "en_US")]
        [("responseEnvelope.ack", "Failure")] 1 none none none none none none) = false := by
  refine ⟨rfl, rfl, rfl⟩

/-- C2 (witness): a completed failure response carrying
`error(0).errorId` and `error(0).message` persists a record with the error
pair present and the success pair absent. -/
theorem persisted_success_xor_error_fields_witness :
    ¬ (successFieldsPresent
        (AdaptiveTransaction.mk GET_ADAPTIVE_CHECKOUT "Failure"
          [("actionType", "GET"), ("payKey", "PK"), ("requestEnvelope.errorLanguage", "en_US")]
          [("responseEnvelope.ack", "Failure"), ("error(0).errorId", "520009"),
           ("error(0).message", "Bad")] 1 none none none none (some "520009") (some "Bad")) = true ∧
      errorFieldsPresent
        (AdaptiveTransaction.mk GET_ADAPTIVE_CHECKOUT "Failure"
          [("actionType", "GET"), ("payKey", "PK"), ("requestEnvelope.errorLanguage", "en_US")]
          [("responseEnvelope.ack", "Failure"), ("error(0).errorId", "520009"),
           ("error(0).message", "Bad")] 1 none none none none (some "520009") (some "Bad")) = true) ∧
    successFieldsPresent
      (AdaptiveTransaction.mk GET_ADAPTIVE_CHECKOUT "Failure"
        [("actionType", "GET"), ("payKey", "PK"), ("requestEnvelope.errorLanguage", "en_US")]
        [("responseEnvelope.ack", "Failure"), ("error(0).errorId", "520009"),
         ("error(0).message", "Bad")] 1 none none none none (some "520009") (some "Bad")) =
      !(errorFieldsPresent
        (AdaptiveTransaction.mk GET_ADAPTIVE_CHECKOUT "Failure"
          [("actionType", "GET"), ("payKey", "PK"), ("requestEnvelope.errorLanguage", "en_US")]
          [("responseEnvelope.ack", "Failure"), ("error(0).errorId", "520009"),
           ("error(0).message", "Bad")] 1 none none none none (some "520009") (some "Bad"))) :=
  ⟨((persisted_success_xor_error_fields (PaypalSettings.mk true "plat@x") (Basket.mk [] 5)
      "GBP" "r" "c" "PK" "Payer" "TOK" "Sale" 5
      (HttpResponse.mk 200
        [("responseEnvelope.ack", "Failure"), ("error(0).errorId", "520009"),
         ("error(0).message", "Bad")] 1)).2.1 _ (List.mem_singleton.mpr rfl)).1,
   ((persisted_success_xor_error_fields (PaypalSettings.mk true "plat@x") (Basket.mk [] 5)
      "GBP" "r" "c" "PK" "Payer" "TOK" "Sale" 5
      (HttpResponse.mk 200
        [("responseEnvelope.ack", "Failure"), ("error(0).errorId", "520009"),
         ("error(0).message", "Bad")] 1)).2.1 _ (List.mem_singleton.mpr rfl)).2
      rfl rfl⟩

theorem URLS_set_eq : URLS SET_ADAPTIVE_CHECKOUT =
    some ⟨"https://svcs.sandbox.paypal.com/AdaptivePayments/Pay",
          "https://svcs.paypal.com/AdaptivePayments/Pay"⟩ := rfl

/-- C7 (amended): for every call whose 200 response is well-formed (it
carries `responseEnvelope.ack`, and on a success acknowledgement also
`responseEnvelope.correlationId`, `payKey` and `currencyCode`), the
transaction record is persisted exactly once whether successful or not,
and an unsuccessful record leads to a raised `PayPalError` carrying the
record's error code and message after the record is persisted.  A
success-acknowledged response missing one of these fields instead aborts
on the field access and persists nothing. -/
theorem persists_exactly_once (cfg : PaypalSettings) (basket : Basket)
    (currency return_url cancel_url pay_key payer_id token act : String)
    (amt : ℚ) (resp : HttpResponse)
    (hst : resp.status_code = 200)
    (hackp : (firstValue resp.content "responseEnvelope.ack").isSome = true)
    (hwf : ∀ ack, firstValue resp.content "responseEnvelope.ack" = some ack →
      (ack = "Success" ∨ ack = "SuccessWithWarning") →
      (firstValue resp.content "responseEnvelope.correlationId").isSome = true ∧
      (firstValue resp.content "payKey").isSome = true ∧
      (firstValue resp.content "currencyCode").isSome = true) :
    (¬ (currency = "USD" ∧ 10000 < basket.total_incl_tax) →
      ¬ basket.total_incl_tax ≤ 0 →
      (set_txn cfg basket currency return_url cancel_url resp).persisted.length = 1 ∧
      (∀ txn ∈ (set_txn cfg basket currency return_url cancel_url resp).persisted,
        txn.is_successful = false →
        (set_txn cfg basket currency return_url cancel_url resp).result =
          .error (.payPalError (errorText txn)))) ∧
    ((get_txn cfg pay_key resp).persisted.length = 1 ∧
      (∀ txn ∈ (get_txn cfg pay_key resp).persisted, txn.is_successful = false →
        (get_txn cfg pay_key resp).result = .error (.payPalError (errorText txn)))) ∧
    ((do_txn cfg payer_id token amt currency act resp).persisted.length = 1 ∧
      (∀ txn ∈ (do_txn cfg payer_id token amt currency act resp).persisted,
        txn.is_successful = false →
        (do_txn cfg payer_id token amt currency act resp).result =
          .error (.payPalError (errorText txn)))) := by
  obtain ⟨ack, hackEq⟩ := Option.isSome_iff_exists.mp hackp
  refine ⟨?_, ?_, ?_⟩
  · intro hb1 hb2
    simp only [set_txn]
    rw [if_neg hb1, if_neg hb2]
    simp only [fetch_response, URLS_set_eq, post, requests_codes_ok, hst]
    norm_num
    simp only [hackEq, mkBaseTxn_is_successful, Bool.or_eq_true, decide_eq_true_eq]
    by_cases hs : (ack = "Success" ∨ ack = "SuccessWithWarning")
    · obtain ⟨hcid, hpk, hcur⟩ := hwf ack hackEq hs
      obtain ⟨cid, hcidEq⟩ := Option.isSome_iff_exists.mp hcid
      obtain ⟨pk, hpkEq⟩ := Option.isSome_iff_exists.mp hpk
      rw [if_pos hs]
      simp only [hcidEq, hpkEq]
      refine ⟨rfl, ?_⟩
      intro txn hmem hfail
      simp at hmem
      subst hmem
      rcases hs with hs | hs <;>
        simp [withSuccessFields, mkBaseTxn, AdaptiveTransaction.is_successful, hs] at hfail
    · rw [if_neg hs]
      refine ⟨rfl, ?_⟩
      intro txn hmem hfail
      simp at hmem
      subst hmem
      rfl
  · simp only [get_txn, fetch_response, URLS_get_eq, post, requests_codes_ok, hst]
    norm_num
    simp only [hackEq, mkBaseTxn_is_successful, Bool.or_eq_true, decide_eq_true_eq]
    by_cases hs : (ack = "Success" ∨ ack = "SuccessWithWarning")
    · obtain ⟨hcid, hpk, hcur⟩ := hwf ack hackEq hs
      obtain ⟨cid, hcidEq⟩ := Option.isSome_iff_exists.mp hcid
      obtain ⟨pk, hpkEq⟩ := Option.isSome_iff_exists.mp hpk
      obtain ⟨cur, hcurEq⟩ := Option.isSome_iff_exists.mp hcur
      rw [if_pos hs]
      simp only [hcidEq, hpkEq, hcurEq]
      refine ⟨rfl, ?_⟩
      intro txn hmem hfail
      simp at hmem
      subst hmem
      rcases hs with hs | hs <;>
        simp [withSuccessFields, mkBaseTxn, AdaptiveTransaction.is_successful, hs] at hfail
    · rw [if_neg hs]
      refine ⟨rfl, ?_⟩
      intro txn hmem hfail
      simp at hmem
      subst hmem
      rfl
  · simp only [do_txn, fetch_response, URLS_do_eq, post, requests_codes_ok, hst]
    norm_num
    simp only [hackEq, mkBaseTxn_is_successful, Bool.or_eq_true, decide_eq_true_eq]
    by_cases hs : (ack = "Success" ∨ ack = "SuccessWithWarning")
    · obtain ⟨hcid, hpk, hcur⟩ := hwf ack hackEq hs
      obtain ⟨cid, hcidEq⟩ := Option.isSome_iff_exists.mp hcid
      obtain ⟨pk, hpkEq⟩ := Option.isSome_iff_exists.mp hpk
      obtain ⟨cur, hcurEq⟩ := Option.isSome_iff_exists.mp hcur
      rw [if_pos hs]
      simp only [hcidEq, hpkEq, hcurEq]
      refine ⟨rfl, ?_⟩
      intro txn hmem hfail
      simp at hmem
      subst hmem
      rcases hs with hs | hs <;>
        simp [withSuccessFields, mkBaseTxn, AdaptiveTransaction.is_successful, hs] at hfail
    · rw [if_neg hs]
      refine ⟨rfl, ?_⟩
      intro txn hmem hfail
      simp at hmem
      subst hmem
      rfl

/-- C7 (counterexample): a parsed 200 response acknowledged `Success` but
missing `responseEnvelope.correlationId` makes `get_txn` abort on the
missing key and persist nothing — refuting "persisted exactly once for
every call that receives a parsed response". -/
theorem persist_skipped_counterexample :
    (HttpResponse.mk 200 [("responseEnvelope.ack", "Success")] 1).status_code = 200 ∧
    (get_txn (PaypalSettings.mk true "plat@x") "PK"
      (HttpResponse.mk 200 [("responseEnvelope.ack", "Success")] 1)).persisted = [] ∧
    (get_txn (PaypalSettings.mk true "plat@x") "PK"
      (HttpResponse.mk 200 [("responseEnvelope.ack", "Success")] 1)).result =
      .error (.keyError "responseEnvelope.correlationId") :=
  ⟨rfl, rfl, rfl⟩

/-- C7 (witness): a well-formed failure response makes `get_txn` persist
exactly one record and raise the `PayPalError` carrying its error code and
message. -/
theorem persists_exactly_once_witness :
    (get_txn (PaypalSettings.mk true "plat@x") "PK"
      (HttpResponse.mk 200
        [("responseEnvelope.ack", "Failure"), ("error(0).errorId", "520009"),
         ("error(0).message", "Bad")] 1)).persisted.length = 1 ∧
    (get_txn (PaypalSettings.mk true "plat@x") "PK"
      (HttpResponse.mk 200
        [("responseEnvelope.ack", "Failure"), ("error(0).errorId", "520009"),
         ("error(0).message", "Bad")] 1)).result =
      .error (.payPalError (errorText
        (AdaptiveTransaction.mk GET_ADAPTIVE_CHECKOUT "Failure"
          [("actionType", "GET"), ("payKey", "PK"), ("requestEnvelope.errorLanguage", "en_US")]
          [("responseEnvelope.ack", "Failure"), ("error(0).errorId", "520009"),
           ("error(0).message", "Bad")] 1 none none none none (some "520009") (some "Bad")))) :=
  ⟨(persists_exactly_once (PaypalSettings.mk true "plat@x") (Basket.mk [] 5)
      "GBP" "r" "c" "PK" "Payer" "TOK" "Sale" 5
      (HttpResponse.mk 200
        [("responseEnvelope.ack", "Failure"), ("error(0).errorId", "520009"),
         ("error(0).message", "Bad")] 1) rfl rfl
      (fun ack hEq hs => by
        have hv : ack = "Failure" := by
          have hv2 : some "Failure" = some ack := hEq
          exact (Option.some.inj hv2).symm
        subst hv
        rcases hs with hs | hs <;> simp at hs)).2.1.1,
   (persists_exactly_once (PaypalSettings.mk true "plat@x") (Basket.mk [] 5)
      "GBP" "r" "c" "PK" "Payer" "TOK" "Sale" 5
      (HttpResponse.mk 200
        [("responseEnvelope.ack", "Failure"), ("error(0).errorId", "520009"),
         ("error(0).message", "Bad")] 1) rfl rfl
      (fun ack hEq hs => by
        have hv : ack = "Failure" := by
          have hv2 : some "Failure" = some ack := hEq
          exact (Option.some.inj hv2).symm
        subst hv
        rcases hs with hs | hs <;> simp at hs)).2.1.2
      (AdaptiveTransaction.mk GET_ADAPTIVE_CHECKOUT "Failure"
        [("actionType", "GET"), ("payKey", "PK"), ("requestEnvelope.errorLanguage", "en_US")]
        [("responseEnvelope.ack", "Failure"), ("error(0).errorId", "520009"),
         ("error(0).message", "Bad")] 1 none none none none (some "520009") (some "Bad"))
      (List.mem_singleton.mpr rfl) rfl⟩

/-- C9 (witness): with the pay key supplied, a successful COMPLETED
transaction fetched, the basket loaded and placement succeeding, the view
places the order, so the fetched transaction satisfies both conditions. -/
theorem success_view_guards_order_witness :
    ∃ txn,
      (SuccessViewRequest.mk (some "PK")
        (.ok (AdaptiveTransaction.mk "GET" "Success" [] [("status", "COMPLETED")] 1
          (some "abc") (some "PK") none (some "GBP") none none))
        (some (Basket.mk [] 5)) (.ok ())).fetchResult = .ok txn ∧
      txn.is_successful = true ∧ txn.value "status" = some "COMPLETED" :=
  (success_view_guards_order
    (SuccessViewRequest.mk (some "PK")
      (.ok (AdaptiveTransaction.mk "GET" "Success" [] [("status", "COMPLETED")] 1
        (some "abc") (some "PK") none (some "GBP") none none))
      (some (Basket.mk [] 5)) (.ok ()))).1 rfl

/-- C10 (witness): two concrete `do_txn` calls differing only in payer,
amount and currency arguments have identical outcomes, and the record the
call persists carries no amount. -/
theorem do_txn_ignores_payer_amount_currency_witness :
    do_txn (PaypalSettings.mk true "plat@x") "P1" "TOK" 5 "GBP" "Sale"
      (HttpResponse.mk 200
        [("responseEnvelope.ack", "Success"), ("responseEnvelope.correlationId", "abc"),
         ("payKey", "PK"), ("currencyCode", "GBP")] 1) =
    do_txn (PaypalSettings.mk true "plat@x") "P2" "TOK" 9 "USD" "Order"
      (HttpResponse.mk 200
        [("responseEnvelope.ack", "Success"), ("responseEnvelope.correlationId", "abc"),
         ("payKey", "PK"), ("currencyCode", "GBP")] 1) ∧
    (AdaptiveTransaction.mk "DO" "Success"
      [("payKey", "TOK"), ("requestEnvelope.errorLanguage", "en_US")]
      [("responseEnvelope.ack", "Success"), ("responseEnvelope.correlationId", "abc"),
       ("payKey", "PK"), ("currencyCode", "GBP")] 1
      (some "abc") (some "PK") none (some "GBP") none none).amount = none :=
  ⟨(do_txn_ignores_payer_amount_currency (PaypalSettings.mk true "plat@x")
      "P1" "P2" "TOK" 5 9 "GBP" "USD" "Sale" "Order"
      (HttpResponse.mk 200
        [("responseEnvelope.ack", "Success"), ("responseEnvelope.correlationId", "abc"),
         ("payKey", "PK"), ("currencyCode", "GBP")] 1)).1,
   (do_txn_ignores_payer_amount_currency (PaypalSettings.mk true "plat@x")
      "P1" "P2" "TOK" 5 9 "GBP" "USD" "Sale" "Order"
      (HttpResponse.mk 200
        [("responseEnvelope.ack", "Success"), ("responseEnvelope.correlationId", "abc"),
         ("payKey", "PK"), ("currencyCode", "GBP")] 1)).2.2
      (AdaptiveTransaction.mk "DO" "Success"
        [("payKey", "TOK"), ("requestEnvelope.errorLanguage", "en_US")]
        [("responseEnvelope.ack", "Success"), ("responseEnvelope.correlationId", "abc"),
         ("payKey", "PK"), ("currencyCode", "GBP")] 1
        (some "abc") (some "PK") none (some "GBP") none none)
      (List.mem_singleton.mpr rfl)⟩

end PaypalAdaptive
